import Mathlib

/-!
Verification development for the OISVS repository.

The repository source under version control contains the React page
component `src/Frontend/src/pages/Homepage.tsx`, which is embedded below
as `Homepage`.  The per-request authentication/authorization chain
(TokenLocator, TokenVerifier, ContextPopulator, EntitlementGate) is
described by the repository's specification and contributor documentation
but its implementation files are not present in the source tree; those
components are therefore modelled from the spec, each such definition
carrying a doc comment that says so.
-/

/-- Modelled from the spec: the carrier a raw token was extracted from
(`header | cookie | query | body`, spec section 3, RawToken tag). -/
inductive TokenSource where
  | header
  | cookie
  | query
  | body
deriving DecidableEq, Repr

/-- Modelled from the spec: RawToken, an opaque string tagged with its
origin carrier (spec section 3). -/
structure RawToken where
  value : String
  source : TokenSource
deriving DecidableEq, Repr

/-- Modelled from the spec: subscription status returned by the billing
collaborator (spec section 4.4 / 6). -/
inductive SubStatus where
  | Active
  | Expired
  | NotFound
deriving DecidableEq, Repr

/-- Modelled from the spec: the error taxonomy of section 7. -/
inductive ChainError where
  | MissingTokenError
  | TokenMalformed
  | TokenExpired
  | SignatureInvalid
  | InvalidPayloadError (field : String)
  | SubscriptionDenied (status : SubStatus)
  | PermissionDenied (missing : List String)
  | EntitlementUnavailable
deriving DecidableEq, Repr

/-- Modelled from the spec: an inbound HTTP request's token carriers —
header map, cookie map, query map and body (spec section 4.1), each a
plain string map. -/
structure Request where
  headers : List (String × String)
  cookies : List (String × String)
  query : List (String × String)
  body : List (String × String)

/-- Look a key up in a string map (association list). -/
def lookupKey (m : List (String × String)) (k : String) : Option String :=
  (m.find? (fun p => p.1 == k)).map Prod.snd

/-- Modelled from the spec: parse an `Authorization` header value of the
form `Bearer <token>`; a value without the scheme marker is treated as
absent (spec section 4.1 item 1). -/
def bearerToken (h : String) : Option String :=
  match h.data with
  | 'B' :: 'e' :: 'a' :: 'r' :: 'e' :: 'r' :: ' ' :: rest => some (String.mk rest)
  | _ => none

/-- Keep a candidate token only when it is non-empty (spec section 4.1:
"the first non-empty raw token found"). -/
def nonEmptyTok (o : Option String) : Option String :=
  o.bind (fun s => if s.isEmpty then none else some s)

/-- Carrier 1: token taken from the `Authorization: Bearer` header. -/
def headerTok (req : Request) : Option String :=
  nonEmptyTok ((lookupKey req.headers "Authorization").bind bearerToken)

/-- Carrier 2: the cookie named `token`. -/
def cookieTok (req : Request) : Option String :=
  nonEmptyTok (lookupKey req.cookies "token")

/-- Carrier 3: the query parameter named `token`. -/
def queryTok (req : Request) : Option String :=
  nonEmptyTok (lookupKey req.query "token")

/-- Carrier 4: the query parameter named `sessionToken`. -/
def querySessionTok (req : Request) : Option String :=
  nonEmptyTok (lookupKey req.query "sessionToken")

/-- Carrier 5: the field named `token` in the request body. -/
def bodyTok (req : Request) : Option String :=
  nonEmptyTok (lookupKey req.body "token")

/-- Modelled from the spec: TokenLocator (ExtractTokenMiddleware), whose
implementation is absent from the source tree.  Checks the carriers in
the exact order of spec section 4.1 — Authorization Bearer header, then
cookie `token`, then query `token`, then query `sessionToken`, then body
`token` — returning the first non-empty token, or halting with
`MissingTokenError` when no carrier yields one. -/
def TokenLocator (req : Request) : Except ChainError RawToken :=
  match headerTok req with
  | some t => .ok ⟨t, .header⟩
  | none =>
    match cookieTok req with
    | some t => .ok ⟨t, .cookie⟩
    | none =>
      match queryTok req with
      | some t => .ok ⟨t, .query⟩
      | none =>
        match querySessionTok req with
        | some t => .ok ⟨t, .query⟩
        | none =>
          match bodyTok req with
          | some t => .ok ⟨t, .body⟩
          | none => .error .MissingTokenError

/-- The shallow embedding of a rendered React element tree, for the
component in `src/Frontend/src/pages/Homepage.tsx`. -/
inductive ReactNode where
  | text (s : String)
  | element (tag : String) (className : String) (children : List ReactNode)

/-- Embedding of `Homepage` from `src/Frontend/src/pages/Homepage.tsx`:
a `React.FC` taking no props that returns a `div.homepage-container`
containing a single `h1.welcome-message` with the text
`Welcome to OISVS`. -/
def Homepage (_ : Unit) : ReactNode :=
  .element "div" "homepage-container"
    [.element "h1" "welcome-message" [.text "Welcome to OISVS"]]

/-- Modelled from the spec: the signing algorithm marker of a token;
verification must not accept "none"-algorithm tokens (spec
section 4.2). -/
inductive Alg where
  | hs256
  | noneAlg
deriving DecidableEq, Repr

/-- Modelled from the spec: DecodedClaims — the decoded payload of a
token, with the standard expiry field and the provider identity fields
that ContextPopulator validates (spec sections 3 and 4.3). -/
structure DecodedClaims where
  accountId : Option String
  userId : Option String
  appId : Option String
  shortLivedToken : Option String
  exp : Int
deriving DecidableEq, Repr

/-- Modelled from the spec: the abstract shape of a raw token as seen by
the verifier — either unparseable, or a payload signed under some key
with some algorithm.  `sigKey` names the secret the signature actually
verifies under. -/
inductive Token where
  | malformed
  | signed (alg : Alg) (sigKey : String) (claims : DecodedClaims)
deriving DecidableEq, Repr

/-- Modelled from the spec: one signature+expiry verification attempt
under a single secret (spec section 4.2): reject unparseable tokens as
`TokenMalformed`, reject "none"-algorithm tokens and wrong signatures as
`SignatureInvalid`, and reject tokens whose expiry lies in the past by
more than the clock-skew tolerance as `TokenExpired`. -/
def verifyWith (secret : String) (now skew : Int) (t : Token) :
    Except ChainError DecodedClaims :=
  match t with
  | .malformed => .error .TokenMalformed
  | .signed alg sigKey claims =>
    if alg = .noneAlg then .error .SignatureInvalid
    else if sigKey ≠ secret then .error .SignatureInvalid
    else if claims.exp + skew < now then .error .TokenExpired
    else .ok claims

/-- Modelled from the spec: classification of a dual-secret failure as
one of the three verification errors (spec section 4.2); an expiry
failure under either secret is reported as `TokenExpired` ("even if
signature is valid"), otherwise the second attempt's classification
stands. -/
def classifyDual (eA eB : ChainError) : ChainError :=
  if eA = .TokenExpired ∨ eB = .TokenExpired then .TokenExpired else eB

/-- Modelled from the spec: TokenVerifier (VerifyMondayJwtMiddleware),
whose implementation is absent from the source tree.  Attempts
verification with secret A, retries with secret B on failure, and if
both fail halts with the classified error (spec section 4.2). -/
def TokenVerifier (secretA secretB : String) (now skew : Int) (t : Token) :
    Except ChainError DecodedClaims :=
  match verifyWith secretA now skew t with
  | .ok claims => .ok claims
  | .error eA =>
    match verifyWith secretB now skew t with
    | .ok claims => .ok claims
    | .error eB => .error (classifyDual eA eB)

/-- Modelled from the spec: IdentityContext — the validated projection
of the claims, all four fields required (spec section 3). -/
structure IdentityContext where
  accountId : String
  userId : String
  appId : String
  shortLivedToken : String
deriving DecidableEq, Repr

/-- Validate one required string field of the claims schema: the field
must be present and non-empty, otherwise the chain halts with
`InvalidPayloadError` naming the field (spec section 4.3). -/
def checkField (name : String) (v : Option String) : Except ChainError String :=
  match v with
  | none => .error (.InvalidPayloadError name)
  | some s => if s = "" then .error (.InvalidPayloadError name) else .ok s

/-- Modelled from the spec: ContextPopulator (PopulateLocalsMiddleware),
whose implementation is absent from the source tree.  Validates the
decoded claims against the fixed schema (required, non-empty
`accountId`, `userId`, `appId`, `shortLivedToken`) and projects them
into an IdentityContext; pure validation and projection, no I/O (spec
section 4.3). -/
def ContextPopulator (claims : DecodedClaims) : Except ChainError IdentityContext := do
  let accountId ← checkField "accountId" claims.accountId
  let userId ← checkField "userId" claims.userId
  let appId ← checkField "appId" claims.appId
  let shortLivedToken ← checkField "shortLivedToken" claims.shortLivedToken
  return ⟨accountId, userId, appId, shortLivedToken⟩

/-- Modelled from the spec: the outcome of one external collaborator
call — either a response, or failure of the call itself
(network error / timeout, spec sections 4.4 and 5). -/
inductive CollabResult (α : Type) where
  | ok (val : α)
  | unavailable

/-- Modelled from the spec: the process-wide configuration and the two
external collaborators the chain talks to — the two signing secrets, the
clock parameters, the billing and permissions collaborators, and the
route's declared required-permission set (spec sections 4.4, 5, 6). -/
structure ChainEnv where
  decode : String → Token
  secretA : String
  secretB : String
  now : Int
  skew : Int
  billing : String → CollabResult SubStatus
  permissions : String → String → String → List String → CollabResult (List String)
  required : List String

/-- Modelled from the spec: the subscription sub-check of
EntitlementGate (spec section 4.4 item 1): only `Active` proceeds;
`Expired`/`NotFound` halt with `SubscriptionDenied` carrying the
returned status; failure of the billing call itself halts with
`EntitlementUnavailable`. -/
def subscriptionCheck (env : ChainEnv) (ctx : IdentityContext) : Except ChainError Unit :=
  match env.billing ctx.accountId with
  | .unavailable => .error .EntitlementUnavailable
  | .ok .Active => .ok ()
  | .ok status => .error (.SubscriptionDenied status)

/-- The required permissions not held, in required-set order. -/
def missingPerms (required held : List String) : List String :=
  required.filter (fun p => decide (p ∉ held))

/-- Modelled from the spec: the permission sub-check of EntitlementGate
(spec section 4.4 item 2): proceed when the held set is a superset of
the required set, otherwise halt with `PermissionDenied` carrying the
missing permissions; failure of the permissions call itself halts with
`EntitlementUnavailable`. -/
def permissionCheck (env : ChainEnv) (ctx : IdentityContext) : Except ChainError Unit :=
  match env.permissions ctx.accountId ctx.userId ctx.appId env.required with
  | .unavailable => .error .EntitlementUnavailable
  | .ok held =>
    if missingPerms env.required held = [] then .ok ()
    else .error (.PermissionDenied (missingPerms env.required held))

/-- Stages of the per-request chain, recorded in the order they are
invoked (spec section 2): a stage's marker is in the trace exactly when
that stage ran; `handled` marks the protected handler itself. -/
inductive Stage where
  | located
  | verified
  | populated
  | subChecked
  | permChecked
  | handled
deriving DecidableEq, Repr

/-- Modelled from the spec: the full short-circuiting chain of
section 2 — TokenLocator, TokenVerifier, ContextPopulator,
EntitlementGate(subscription), EntitlementGate(permissions), handler —
returning the trace of stages that were invoked together with the
outcome; every failing stage halts the chain immediately. -/
def runChain (env : ChainEnv) (req : Request) : List Stage × Except ChainError Unit :=
  match TokenLocator req with
  | .error e => ([.located], .error e)
  | .ok raw =>
    match TokenVerifier env.secretA env.secretB env.now env.skew (env.decode raw.value) with
    | .error e => ([.located, .verified], .error e)
    | .ok claims =>
      match ContextPopulator claims with
      | .error e => ([.located, .verified, .populated], .error e)
      | .ok ctx =>
        match subscriptionCheck env ctx with
        | .error e => ([.located, .verified, .populated, .subChecked], .error e)
        | .ok _ =>
          match permissionCheck env ctx with
          | .error e => ([.located, .verified, .populated, .subChecked, .permChecked], .error e)
          | .ok _ =>
            ([.located, .verified, .populated, .subChecked, .permChecked, .handled], .ok ())

/-- A claims field is present when it holds a non-empty string (spec
section 4.3 schema: required, non-empty identifier fields). -/
def PresentField (o : Option String) : Prop :=
  ∃ s, o = some s ∧ s ≠ ""

/-- The claims field carrying a given schema field name, used to state
that a validation error names a field that is in fact invalid. -/
def claimField (claims : DecodedClaims) (f : String) : Option String :=
  if f = "accountId" then claims.accountId
  else if f = "userId" then claims.userId
  else if f = "appId" then claims.appId
  else if f = "shortLivedToken" then claims.shortLivedToken
  else none

/-- Shared concrete claims object used by the concrete instantiations
below. -/
def claimsEx : DecodedClaims :=
  ⟨some "a1", some "u1", some "ap1", some "slt", 1000⟩

/-- Shared concrete request carrying a bearer token in the header. -/
def reqEx : Request :=
  ⟨[("Authorization", "Bearer tok")], [], [], []⟩

/-- Shared concrete environment: decodes every raw token to a token
signed under secret A with `claimsEx`; the billing and permission
responses vary per instantiation below via `withBilling` /
`withPermissions`. -/
def envEx : ChainEnv :=
  ⟨fun _ => .signed .hs256 "A" claimsEx, "A", "B", 100, 0,
   fun _ => .ok .Active, fun _ _ _ _ => .ok ["read", "write"], ["read"]⟩

/-- Replace the billing collaborator of an environment. -/
def withBilling (env : ChainEnv) (b : String → CollabResult SubStatus) : ChainEnv :=
  { env with billing := b }

/-- Replace the permissions collaborator and required set of an
environment. -/
def withPermissions (env : ChainEnv)
    (p : String → String → String → List String → CollabResult (List String))
    (required : List String) : ChainEnv :=
  { env with permissions := p, required := required }

/-- Any failure of a single-secret verification attempt is one of the
three classified verification errors. -/
theorem verifyWith_error_classified (secret : String) (now skew : Int) (t : Token)
    (e : ChainError) (h : verifyWith secret now skew t = .error e) :
    e = .TokenExpired ∨ e = .TokenMalformed ∨ e = .SignatureInvalid := by
  cases t with
  | malformed =>
    simp [verifyWith] at h
    simp [← h]
  | signed alg sigKey claims =>
    simp only [verifyWith] at h
    split at h
    · simp at h; simp [← h]
    · split at h
      · simp at h; simp [← h]
      · split at h
        · simp at h; simp [← h]
        · simp at h

/-- A signature-matching, well-algorithmed but expired token fails a
single-secret attempt with `TokenExpired`. -/
theorem verifyWith_expired_match (now skew : Int) (alg : Alg) (k : String)
    (claims : DecodedClaims) (halg : alg ≠ .noneAlg) (hexp : claims.exp + skew < now) :
    verifyWith k now skew (.signed alg k claims) = .error .TokenExpired := by
  simp [verifyWith, halg, hexp]

/-- A token whose signature key differs from the attempted secret fails
that attempt with `SignatureInvalid`. -/
theorem verifyWith_sig_mismatch (secret : String) (now skew : Int) (alg : Alg)
    (k : String) (claims : DecodedClaims) (hk : k ≠ secret) :
    verifyWith secret now skew (.signed alg k claims) = .error .SignatureInvalid := by
  by_cases halg : alg = Alg.noneAlg <;> simp [verifyWith, halg, hk]

/-- C2: TokenVerifier (VerifyMondayJwtMiddleware) succeeds whenever the
token is valid under secret A or under secret B — in particular the
dual-secret fallback holds for a token valid only under B — and for a
token invalid under both secrets it halts with one of `TokenExpired`,
`TokenMalformed`, `SignatureInvalid`, never returning a success
value. -/
theorem tokenVerifier_dual_fallback (sA sB : String) (now skew : Int) (t : Token) :
    (((∃ c, verifyWith sA now skew t = .ok c) ∨ (∃ c, verifyWith sB now skew t = .ok c)) →
      ∃ c, TokenVerifier sA sB now skew t = .ok c) ∧
    ((∀ c, verifyWith sA now skew t ≠ .ok c) → (∀ c, verifyWith sB now skew t ≠ .ok c) →
      ∃ e, TokenVerifier sA sB now skew t = .error e ∧
        (e = .TokenExpired ∨ e = .TokenMalformed ∨ e = .SignatureInvalid) ∧
        ∀ c, TokenVerifier sA sB now skew t ≠ .ok c) := by
  constructor
  · intro h
    cases hA : verifyWith sA now skew t with
    | ok c => exact ⟨c, by simp [TokenVerifier, hA]⟩
    | error eA =>
      rcases h with ⟨c, hc⟩ | ⟨c, hc⟩
      · exact absurd hc (by simp [hA])
      · exact ⟨c, by simp [TokenVerifier, hA, hc]⟩
  · intro hA hB
    cases hA' : verifyWith sA now skew t with
    | ok c => exact absurd hA' (hA c)
    | error eA =>
      cases hB' : verifyWith sB now skew t with
      | ok c => exact absurd hB' (hB c)
      | error eB =>
        have hrun : TokenVerifier sA sB now skew t = .error (classifyDual eA eB) := by
          simp [TokenVerifier, hA', hB']
        refine ⟨classifyDual eA eB, hrun, ?_, by simp [hrun]⟩
        have hBcl := verifyWith_error_classified sB now skew t eB hB'
        by_cases hx : eA = ChainError.TokenExpired ∨ eB = ChainError.TokenExpired
        · simp [classifyDual, hx]
        · simpa [classifyDual, hx] using hBcl

/-- Witness for C2 at a concrete token signed under secret B only: the
fallback attempt succeeds. -/
theorem tokenVerifier_dual_fallback_witness :
    ∃ c, TokenVerifier "A" "B" 100 0 (.signed .hs256 "B" claimsEx) = .ok c :=
  (tokenVerifier_dual_fallback "A" "B" 100 0 (.signed .hs256 "B" claimsEx)).1
    (Or.inr ⟨claimsEx, rfl⟩)

/-- C3: a token whose expiry lies in the past by more than the
configured clock-skew tolerance fails TokenVerifier with the
classification `TokenExpired`, even when its signature is valid under
one of the two secrets. -/
theorem tokenVerifier_expired (sA sB : String) (now skew : Int) (alg : Alg)
    (k : String) (claims : DecodedClaims) (halg : alg ≠ .noneAlg)
    (hkey : k = sA ∨ k = sB) (hexp : claims.exp + skew < now) :
    TokenVerifier sA sB now skew (.signed alg k claims) = .error .TokenExpired := by
  rcases hkey with hk | hk
  · subst hk
    have hA := verifyWith_expired_match now skew alg k claims halg hexp
    by_cases hb : k = sB
    · subst hb
      simp [TokenVerifier, hA, classifyDual]
    · have hB := verifyWith_sig_mismatch sB now skew alg k claims hb
      simp [TokenVerifier, hA, hB, classifyDual]
  · subst hk
    have hB := verifyWith_expired_match now skew alg k claims halg hexp
    by_cases ha : k = sA
    · subst ha
      simp [TokenVerifier, hB, classifyDual]
    · have hA := verifyWith_sig_mismatch sA now skew alg k claims ha
      simp [TokenVerifier, hA, hB, classifyDual]

/-- Witness for C3 at a concrete expired token signed under secret B:
expiry 10 with skew 5 lies beyond tolerance at time 100. -/
theorem tokenVerifier_expired_witness :
    TokenVerifier "A" "B" 100 5
      (.signed .hs256 "B" ⟨some "a1", some "u1", some "ap1", some "slt", 10⟩) =
      .error .TokenExpired :=
  tokenVerifier_expired "A" "B" 100 5 .hs256 "B" _ (by decide) (Or.inr rfl) (by decide)

/-- C4: ContextPopulator (PopulateLocalsMiddleware) halts with
`InvalidPayloadError` naming an invalid field for every claims object
missing any of `accountId`, `userId`, `appId`, and for every claims
object satisfying the schema populates the IdentityContext with all
four fields non-empty and drawn from the claims. -/
theorem contextPopulator_schema (claims : DecodedClaims) :
    ((claims.accountId = none ∨ claims.userId = none ∨ claims.appId = none) →
      ∃ f, ContextPopulator claims = .error (.InvalidPayloadError f) ∧
        ¬ PresentField (claimField claims f)) ∧
    (PresentField claims.accountId → PresentField claims.userId →
      PresentField claims.appId → PresentField claims.shortLivedToken →
      ∃ ctx, ContextPopulator claims = .ok ctx ∧
        claims.accountId = some ctx.accountId ∧ claims.userId = some ctx.userId ∧
        claims.appId = some ctx.appId ∧
        claims.shortLivedToken = some ctx.shortLivedToken ∧
        ctx.accountId ≠ "" ∧ ctx.userId ≠ "" ∧ ctx.appId ≠ "" ∧
        ctx.shortLivedToken ≠ "") := by
  constructor
  · intro hmiss
    cases hacc : claims.accountId with
    | none =>
      refine ⟨"accountId", ?_, ?_⟩
      · simp [ContextPopulator, checkField, hacc, Bind.bind, Except.bind]
      · simp [claimField, hacc, PresentField]
    | some a =>
      by_cases ha : a = ""
      · subst ha
        refine ⟨"accountId", ?_, ?_⟩
        · simp [ContextPopulator, checkField, hacc, Bind.bind, Except.bind]
        · simp [claimField, hacc, PresentField]
      · cases huid : claims.userId with
        | none =>
          refine ⟨"userId", ?_, ?_⟩
          · simp [ContextPopulator, checkField, hacc, ha, huid, Bind.bind, Except.bind]
          · simp [claimField, huid, PresentField]
        | some u =>
          by_cases hu : u = ""
          · subst hu
            refine ⟨"userId", ?_, ?_⟩
            · simp [ContextPopulator, checkField, hacc, ha, huid, Bind.bind, Except.bind]
            · simp [claimField, huid, PresentField]
          · have happ : claims.appId = none := by
              rcases hmiss with h | h | h
              · rw [h] at hacc; cases hacc
              · rw [h] at huid; cases huid
              · exact h
            refine ⟨"appId", ?_, ?_⟩
            · simp [ContextPopulator, checkField, hacc, ha, huid, hu, happ,
                Bind.bind, Except.bind]
            · simp [claimField, happ, PresentField]
  · intro h1 h2 h3 h4
    obtain ⟨a, ha, ha'⟩ := h1
    obtain ⟨u, hu, hu'⟩ := h2
    obtain ⟨p, hp, hp'⟩ := h3
    obtain ⟨s, hs, hs'⟩ := h4
    refine ⟨⟨a, u, p, s⟩, ?_, by simp [ha], by simp [hu], by simp [hp], by simp [hs],
      ha', hu', hp', hs'⟩
    simp [ContextPopulator, checkField, ha, hu, hp, hs, ha', hu', hp', hs',
      Bind.bind, Except.bind, pure, Except.pure]

/-- Witness for C4 at a concrete claims object with `accountId`
missing. -/
theorem contextPopulator_schema_witness :
    ∃ f, ContextPopulator ⟨none, some "u1", some "ap1", some "slt", 0⟩ =
        .error (.InvalidPayloadError f) ∧
      ¬ PresentField (claimField ⟨none, some "u1", some "ap1", some "slt", 0⟩ f) :=
  (contextPopulator_schema ⟨none, some "u1", some "ap1", some "slt", 0⟩).1 (Or.inl rfl)

/-- C1: for every request carrying a token in more than one carrier,
TokenLocator (ExtractTokenMiddleware) returns the token from the
highest-priority carrier, in the exact order Authorization Bearer header
(absent when the scheme marker is missing), cookie `token`, query
`token`, query `sessionToken`, body `token`; and for every request with
no token in any carrier the chain halts with `MissingTokenError` before
verification runs. -/
theorem tokenLocator_priority_and_missing (req : Request) :
    (∀ t, headerTok req = some t → TokenLocator req = .ok ⟨t, .header⟩) ∧
    (∀ t, headerTok req = none → cookieTok req = some t →
      TokenLocator req = .ok ⟨t, .cookie⟩) ∧
    (∀ t, headerTok req = none → cookieTok req = none → queryTok req = some t →
      TokenLocator req = .ok ⟨t, .query⟩) ∧
    (∀ t, headerTok req = none → cookieTok req = none → queryTok req = none →
      querySessionTok req = some t → TokenLocator req = .ok ⟨t, .query⟩) ∧
    (∀ t, headerTok req = none → cookieTok req = none → queryTok req = none →
      querySessionTok req = none → bodyTok req = some t →
      TokenLocator req = .ok ⟨t, .body⟩) ∧
    (headerTok req = none → cookieTok req = none → queryTok req = none →
      querySessionTok req = none → bodyTok req = none →
      TokenLocator req = .error .MissingTokenError ∧
      ∀ env : ChainEnv, runChain env req = ([.located], .error .MissingTokenError) ∧
        Stage.verified ∉ (runChain env req).1) := by
  refine ⟨?_, ?_, ?_, ?_, ?_, ?_⟩
  · intro t h; simp [TokenLocator, h]
  · intro t h1 h2; simp [TokenLocator, h1, h2]
  · intro t h1 h2 h3; simp [TokenLocator, h1, h2, h3]
  · intro t h1 h2 h3 h4; simp [TokenLocator, h1, h2, h3, h4]
  · intro t h1 h2 h3 h4 h5; simp [TokenLocator, h1, h2, h3, h4, h5]
  · intro h1 h2 h3 h4 h5
    have hl : TokenLocator req = .error .MissingTokenError := by
      simp [TokenLocator, h1, h2, h3, h4, h5]
    exact ⟨hl, fun env => by simp [runChain, hl]⟩

/-- Witness for C1 at a concrete request holding tokens in the cookie,
query and body carriers but no Bearer-schemed header: the cookie wins. -/
theorem tokenLocator_priority_and_missing_witness :
    TokenLocator ⟨[("Authorization", "tok-without-scheme")], [("token", "ck")],
      [("token", "qv"), ("sessionToken", "sv")], [("token", "bv")]⟩ =
      .ok ⟨"ck", .cookie⟩ :=
  (tokenLocator_priority_and_missing _).2.1 "ck" rfl rfl

/-- C5: when the subscription check returns a status other than
`Active`, the chain halts at the subscription stage with
`SubscriptionDenied` carrying that status, and neither the permission
stage nor the handler ever runs. -/
theorem subscription_short_circuit (env : ChainEnv) (req : Request) (raw : RawToken)
    (claims : DecodedClaims) (ctx : IdentityContext) (status : SubStatus)
    (hloc : TokenLocator req = .ok raw)
    (hver : TokenVerifier env.secretA env.secretB env.now env.skew
      (env.decode raw.value) = .ok claims)
    (hpop : ContextPopulator claims = .ok ctx)
    (hbill : env.billing ctx.accountId = .ok status)
    (hne : status ≠ .Active) :
    runChain env req = ([.located, .verified, .populated, .subChecked],
      .error (.SubscriptionDenied status)) ∧
    Stage.permChecked ∉ (runChain env req).1 ∧
    Stage.handled ∉ (runChain env req).1 := by
  have hsub : subscriptionCheck env ctx = .error (.SubscriptionDenied status) := by
    cases status with
    | Active => exact absurd rfl hne
    | Expired => simp [subscriptionCheck, hbill]
    | NotFound => simp [subscriptionCheck, hbill]
  have hrun : runChain env req = ([.located, .verified, .populated, .subChecked],
      .error (.SubscriptionDenied status)) := by
    simp [runChain, hloc, hver, hpop, hsub]
  exact ⟨hrun, by simp [hrun], by simp [hrun]⟩

/-- Witness for C5 at a concrete environment whose billing collaborator
reports `Expired`. -/
theorem subscription_short_circuit_witness :
    runChain (withBilling envEx (fun _ => .ok .Expired)) reqEx =
      ([.located, .verified, .populated, .subChecked],
        .error (.SubscriptionDenied .Expired)) ∧
    Stage.permChecked ∉ (runChain (withBilling envEx (fun _ => .ok .Expired)) reqEx).1 ∧
    Stage.handled ∉ (runChain (withBilling envEx (fun _ => .ok .Expired)) reqEx).1 :=
  subscription_short_circuit (withBilling envEx (fun _ => .ok .Expired)) reqEx
    ⟨"tok", .header⟩ claimsEx ⟨"a1", "u1", "ap1", "slt"⟩
    .Expired rfl rfl rfl rfl (by decide)

/-- C6: under an `Active` subscription the permission check proceeds
exactly when the held set is a superset of the required set; when some
required permission is missing the chain halts with `PermissionDenied`
listing exactly the required permissions not held, and the handler is
never invoked. -/
theorem permission_gate (env : ChainEnv) (req : Request) (raw : RawToken)
    (claims : DecodedClaims) (ctx : IdentityContext) (held : List String)
    (hloc : TokenLocator req = .ok raw)
    (hver : TokenVerifier env.secretA env.secretB env.now env.skew
      (env.decode raw.value) = .ok claims)
    (hpop : ContextPopulator claims = .ok ctx)
    (hbill : env.billing ctx.accountId = .ok .Active)
    (hperm : env.permissions ctx.accountId ctx.userId ctx.appId env.required = .ok held) :
    ((∀ p ∈ env.required, p ∈ held) →
      runChain env req =
        ([.located, .verified, .populated, .subChecked, .permChecked, .handled], .ok ())) ∧
    ((∃ p ∈ env.required, p ∉ held) →
      runChain env req = ([.located, .verified, .populated, .subChecked, .permChecked],
        .error (.PermissionDenied (missingPerms env.required held))) ∧
      (∀ p, p ∈ missingPerms env.required held ↔ (p ∈ env.required ∧ p ∉ held)) ∧
      Stage.handled ∉ (runChain env req).1) := by
  have hsub : subscriptionCheck env ctx = .ok () := by simp [subscriptionCheck, hbill]
  have hmem : ∀ p, p ∈ missingPerms env.required held ↔ (p ∈ env.required ∧ p ∉ held) := by
    intro p
    simp [missingPerms, List.mem_filter]
  constructor
  · intro hsup
    have hnil : missingPerms env.required held = [] := by
      rw [missingPerms, List.filter_eq_nil_iff]
      intro a hmem'
      simpa using hsup a hmem'
    have hpc : permissionCheck env ctx = .ok () := by
      simp [permissionCheck, hperm, hnil]
    simp [runChain, hloc, hver, hpop, hsub, hpc]
  · intro hmiss
    have hne : missingPerms env.required held ≠ [] := by
      obtain ⟨p, hp, hnp⟩ := hmiss
      intro h0
      have hin := (hmem p).2 ⟨hp, hnp⟩
      rw [h0] at hin
      cases hin
    have hpc : permissionCheck env ctx =
        .error (.PermissionDenied (missingPerms env.required held)) := by
      simp [permissionCheck, hperm, hne]
    have hrun : runChain env req =
        ([.located, .verified, .populated, .subChecked, .permChecked],
          .error (.PermissionDenied (missingPerms env.required held))) := by
      simp [runChain, hloc, hver, hpop, hsub, hpc]
    exact ⟨hrun, hmem, by simp [hrun]⟩

/-- Witness for C6 at two concrete environments: held superset of
required proceeds to the handler; held strict subset of required is
denied with exactly the missing permission. -/
theorem permission_gate_witness :
    runChain (withPermissions envEx (fun _ _ _ _ => .ok ["read", "write"]) ["read"]) reqEx =
      ([.located, .verified, .populated, .subChecked, .permChecked, .handled], .ok ()) ∧
    runChain (withPermissions envEx (fun _ _ _ _ => .ok ["read"]) ["read", "write"]) reqEx =
      ([.located, .verified, .populated, .subChecked, .permChecked],
        .error (.PermissionDenied (missingPerms ["read", "write"] ["read"]))) :=
  ⟨(permission_gate (withPermissions envEx (fun _ _ _ _ => .ok ["read", "write"]) ["read"])
      reqEx ⟨"tok", .header⟩ claimsEx ⟨"a1", "u1", "ap1", "slt"⟩
      ["read", "write"] rfl rfl rfl rfl rfl).1 (by decide),
   ((permission_gate (withPermissions envEx (fun _ _ _ _ => .ok ["read"]) ["read", "write"])
      reqEx ⟨"tok", .header⟩ claimsEx ⟨"a1", "u1", "ap1", "slt"⟩
      ["read"] rfl rfl rfl rfl rfl).2 ⟨"write", by decide, by decide⟩).1⟩

/-- C7: failure of a collaborator call itself (network error or
timeout) halts the chain with `EntitlementUnavailable`, which is
distinct from `SubscriptionDenied` and from `PermissionDenied`, and
never a silent success. -/
theorem entitlement_unavailable (env : ChainEnv) (req : Request) (raw : RawToken)
    (claims : DecodedClaims) (ctx : IdentityContext)
    (hloc : TokenLocator req = .ok raw)
    (hver : TokenVerifier env.secretA env.secretB env.now env.skew
      (env.decode raw.value) = .ok claims)
    (hpop : ContextPopulator claims = .ok ctx) :
    (env.billing ctx.accountId = .unavailable →
      runChain env req = ([.located, .verified, .populated, .subChecked],
        .error .EntitlementUnavailable)) ∧
    (env.billing ctx.accountId = .ok .Active →
      env.permissions ctx.accountId ctx.userId ctx.appId env.required = .unavailable →
      runChain env req = ([.located, .verified, .populated, .subChecked, .permChecked],
        .error .EntitlementUnavailable)) ∧
    (∀ s, (ChainError.EntitlementUnavailable : ChainError) ≠ .SubscriptionDenied s) ∧
    (∀ m, (ChainError.EntitlementUnavailable : ChainError) ≠ .PermissionDenied m) := by
  refine ⟨?_, ?_, ?_, ?_⟩
  · intro hb
    have hsub : subscriptionCheck env ctx = .error .EntitlementUnavailable := by
      simp [subscriptionCheck, hb]
    simp [runChain, hloc, hver, hpop, hsub]
  · intro hb hp
    have hsub : subscriptionCheck env ctx = .ok () := by simp [subscriptionCheck, hb]
    have hpc : permissionCheck env ctx = .error .EntitlementUnavailable := by
      simp [permissionCheck, hp]
    simp [runChain, hloc, hver, hpop, hsub, hpc]
  · intro s h
    cases h
  · intro m h
    cases h

/-- Witness for C7 at a concrete environment whose billing collaborator
call fails. -/
theorem entitlement_unavailable_witness :
    runChain (withBilling envEx (fun _ => .unavailable)) reqEx =
      ([.located, .verified, .populated, .subChecked], .error .EntitlementUnavailable) :=
  (entitlement_unavailable (withBilling envEx (fun _ => .unavailable)) reqEx
    ⟨"tok", .header⟩ claimsEx ⟨"a1", "u1", "ap1", "slt"⟩
    rfl rfl rfl).1 rfl

/-- C8: ContextPopulator is deterministic pure validation and
projection: it reads only the four identity fields of the claims — two
claims objects agreeing on them yield the same result — and any two
runs on the same claims object yield the same result.  Its embedding is
a total function with no world, time or collaborator parameter, so no
network or I/O can influence the outcome. -/
theorem contextPopulator_deterministic (c1 c2 : DecodedClaims)
    (ha : c1.accountId = c2.accountId) (hu : c1.userId = c2.userId)
    (hap : c1.appId = c2.appId) (hs : c1.shortLivedToken = c2.shortLivedToken) :
    ContextPopulator c1 = ContextPopulator c2 ∧
    ∀ r1 r2 : Except ChainError IdentityContext,
      r1 = ContextPopulator c1 → r2 = ContextPopulator c1 → r1 = r2 := by
  constructor
  · simp [ContextPopulator, ha, hu, hap, hs]
  · intro r1 r2 h1 h2
    rw [h1, h2]

/-- Witness for C8 at two concrete claims objects that differ only in
their expiry timestamp. -/
theorem contextPopulator_deterministic_witness :
    ContextPopulator claimsEx =
      ContextPopulator ⟨some "a1", some "u1", some "ap1", some "slt", 0⟩ :=
  (contextPopulator_deterministic claimsEx
    ⟨some "a1", some "u1", some "ap1", some "slt", 0⟩ rfl rfl rfl rfl).1

/-- C9: the Homepage component takes no props (its argument type is the
unit type) and is deterministic: any two renders return structurally
identical element trees. -/
theorem homepage_nullary_pure (u v : Unit) : Homepage u = Homepage v := rfl

/-- C10: every render of Homepage returns a `div` with className
`homepage-container` whose sole child is an `h1` with className
`welcome-message` containing the text `Welcome to OISVS`. -/
theorem homepage_renders_welcome :
    Homepage () = ReactNode.element "div" "homepage-container"
      [ReactNode.element "h1" "welcome-message" [ReactNode.text "Welcome to OISVS"]] := rfl
